import Mathlib

/-!
Shallow embedding of the IMDb ratings analysis pipeline
(`src/imdb_analysis_complete.py`, class `IMDbAnalyzer`) and proofs about it.

Modelling conventions:
* A pandas row becomes a `Record`.  The `Your Rating` column is an integer
  (`Int`), `IMDb Rating` is a nullable real modelled as `Option ℚ`,
  `Year` (release year) is a nullable integer, `Date Rated` is a required
  calendar date, and `Genres` / `Directors` are nullable raw strings.
* `datetime.now().year` (used by `load_data` for `Content_Age`) is made an
  explicit parameter `refYear`, so every pipeline function is a pure function
  of `(refYear, records)`.
* Missing values (NaN/NaT) are `none`; statistics that pandas reports as NaN
  are `Option.none`.  Functions that can raise a Python exception return
  `Except String _`, with the exception class name as the error value.
* Floating point arithmetic is modelled exactly over `ℚ`.  A Pearson
  correlation value `cov / sqrt(vx * vy)` is irrational in general, so it is
  encoded as the pair `Corr` of its numerator `cov` and the squared
  denominator `varProd = vx * vy > 0`; every comparison the script performs
  on the correlation (`abs(c) > 0.7`, `abs(c) > 0.4`) is expressed exactly
  on this encoding.  Likewise a sample standard deviation is represented by
  the sample variance (its square): it is absent in the model exactly when
  pandas reports NaN.
-/

/-- A calendar date, as produced by `pd.to_datetime` for the
`Date Rated` column. -/
structure Date where
  year : Int
  month : Nat
  day : Nat
deriving DecidableEq, Repr

/-- Comparison key for dates: lexicographic year/month/day, encoded as a
single integer (valid for calendar dates since month, day < 100). -/
def dateVal (d : Date) : Int := d.year * 10000 + (d.month : Int) * 100 + (d.day : Int)

/-- `Series.max()` over a list of dates: `none` mirrors pandas `NaT` on an
empty selection (where the source's `.strftime` would fail). -/
def maxDate : List Date → Option Date
  | [] => none
  | d :: ds => some (ds.foldl (fun best x => if dateVal best < dateVal x then x else best) d)

/-- One row of the loaded CSV, with the columns the analysis uses.
`yourRating` (`Your Rating`) and `dateRated` (`Date Rated`) are required by
the data contract; the other columns are nullable. -/
structure Record where
  titleType : String
  yourRating : Int
  imdbRating : Option ℚ
  year : Option Int
  dateRated : Date
  genres : Option String
  directors : Option String
deriving DecidableEq, Repr

/-- Derived column `Rating Year = df['Date Rated'].dt.year`. -/
def Record.ratingYear (r : Record) : Int := r.dateRated.year

/-- Derived column `Content_Age = datetime.now().year - df['Year']`, with the
current year made an explicit parameter; `none` when the release year is
absent (NaN propagates). -/
def contentAge (refYear : Int) (r : Record) : Option Int :=
  r.year.map (fun y => refYear - y)

/-! ## Multi-value field splitter (lines 93–96 and 126–129 of the source) -/

/-- Python `str.split(',')` over the character list: splits at every comma,
keeping empty pieces. -/
def splitCommaAux : List Char → List Char → List (List Char)
  | [], cur => [cur.reverse]
  | c :: rest, cur =>
    if c = ',' then cur.reverse :: splitCommaAux rest []
    else splitCommaAux rest (c :: cur)

/-- Python `str.strip()`: drop leading and trailing whitespace. -/
def pyStrip (l : List Char) : List Char :=
  ((l.dropWhile Char.isWhitespace).reverse.dropWhile Char.isWhitespace).reverse

/-- The multi-value field splitter:
`[d.strip() for d in str(field).split(',')]` guarded by
`fillna('')` and `if field:` — an absent or empty field contributes no
tokens, otherwise the field is split at every comma and each piece is
stripped.  (Empty pieces are kept, exactly as in the source.) -/
def splitField (field : Option String) : List String :=
  match field with
  | none => []
  | some s =>
    if s = "" then []
    else (splitCommaAux s.toList []).map (fun cs => String.mk (pyStrip cs))

/-- `pandas.Series.str.contains(pat, na=False)`: substring containment test
on the raw field, `False` on a missing field.  (The source passes the token
to `str.contains`, which interprets it as a regular expression; for the
patterns arising here — no regex metacharacter semantics are relied on by
any theorem below — this coincides with substring search.) -/
def containsSub (pat : List Char) : List Char → Bool
  | [] => pat.isEmpty
  | c :: rest => pat.isPrefixOf (c :: rest) || containsSub pat rest

/-- Substring test on a nullable field, mirroring `str.contains(_, na=False)`. -/
def strContains (field : Option String) (pat : String) : Bool :=
  match field with
  | none => false
  | some s => containsSub pat.toList s.toList

/-- Refinement comparison definition, following the SPEC's words rather than
the code: a record "lists" a token when the token occurs in the split,
trimmed token sequence of its field (exact string identity). -/
def listsTokenSpec (field : Option String) (tok : String) : Bool :=
  (splitField field).contains tok

/-! ## `collections.Counter` and `most_common` -/

/-- First-occurrence order of distinct elements (Python dict insertion
order), accumulator-style. -/
def dedupAux {α} [DecidableEq α] (seen : List α) : List α → List α
  | [] => []
  | x :: xs => if x ∈ seen then dedupAux seen xs else x :: dedupAux (x :: seen) xs

/-- Distinct elements of a list in first-occurrence order. -/
def dedupKeepFirst {α} [DecidableEq α] (l : List α) : List α := dedupAux [] l

/-- `Counter(l)` as an association list in insertion order: each distinct
element paired with its multiplicity. -/
def counterItems {α} [DecidableEq α] (l : List α) : List (α × Nat) :=
  (dedupKeepFirst l).map (fun t => (t, l.count t))

/-- Insert a count into a strictly-descending list of counts, skipping
duplicates. -/
def insertCountDesc (n : Nat) : List Nat → List Nat
  | [] => [n]
  | m :: rest =>
    if n > m then n :: m :: rest
    else if n = m then m :: rest
    else m :: insertCountDesc n rest

/-- The distinct count values of an association list, descending. -/
def sortCountsDesc (l : List Nat) : List Nat :=
  l.foldl (fun acc n => insertCountDesc n acc) []

/-- Stable sort of counter items by descending count (`heapq.nlargest` /
`sorted(..., reverse=True)` is stable, so ties keep insertion order):
enumerate the distinct counts in descending order and keep, for each, the
items with that count in their original order. -/
def stableSortByCountDesc (items : List (String × Nat)) : List (String × Nat) :=
  ((sortCountsDesc (items.map (fun p => p.2))).map
    (fun c => items.filter (fun p => p.2 = c))).flatten

/-- `Counter.most_common(n)`: the first `n` items of the stable descending
sort by count. -/
def most_common (n : Nat) (items : List (String × Nat)) : List (String × Nat) :=
  (stableSortByCountDesc items).take n

/-! ## Statistics helpers -/

/-- `Series.mean()` on an integer column: NaN (`none`) on an empty series. -/
def meanInt : List Int → Option ℚ
  | [] => none
  | x :: xs => some (((x :: xs).sum : ℚ) / ((x :: xs).length : ℚ))

/-- `Series.mean()` on a rational column: NaN (`none`) on an empty series. -/
def mean : List ℚ → Option ℚ
  | [] => none
  | x :: xs => some ((x :: xs).sum / ((x :: xs).length : ℚ))

/-- `Series.mean()` on a nullable column: pandas skips NaN entries, so the
mean is taken over the present values only. -/
def meanOpt (l : List (Option ℚ)) : Option ℚ :=
  mean (l.filterMap id)

/-- Sample variance (`ddof=1`), i.e. the square of `Series.std()`: NaN
(`none`) on samples of fewer than two elements.  The source's standard
deviation is the square root of this value; representing the square keeps
the embedding exact, and absence coincides with pandas NaN. -/
def sampleVarInt (l : List Int) : Option ℚ :=
  match meanInt l with
  | none => none
  | some m =>
    if l.length < 2 then none
    else some ((l.map (fun x => ((x : ℚ) - m) ^ 2)).sum / ((l.length : ℚ) - 1))

/-- Round-half-to-even to an integer (the rounding used by
`numpy`/`pandas.round`), exact over ℚ. -/
def roundHalfEven (x : ℚ) : ℤ :=
  if x.den = 1 then x.num
  else
    let f := x.num.fdiv (x.den : ℤ)
    let r := x - (f : ℚ)
    if r < 1 / 2 then f
    else if (1 : ℚ) / 2 < r then f + 1
    else if f % 2 = 0 then f else f + 1

/-- `.round(2)`: round to two decimal places, half to even. -/
def round2 (q : ℚ) : ℚ := (roundHalfEven (q * 100) : ℚ) / 100

/-- The smallest value of a nonempty integer list. -/
def minList : List Int → Option Int
  | [] => none
  | x :: xs => some (xs.foldl min x)

/-- Fold step for `Series.mode().iloc[0]`: keep the element whose count is
strictly larger, or — at equal count — the numerically smaller one. -/
def modeBest (l : List Int) (best v : Int) : Int :=
  if l.count best < l.count v then v
  else if l.count v = l.count best ∧ v < best then v
  else best

/-- `Series.mode().iloc[0]`: the smallest among the most frequent values
(pandas mode is sorted ascending).  On an empty series `mode()` is empty and
`.iloc[0]` raises `IndexError`; that failure is modelled by `none`. -/
def modeSmallest : List Int → Option Int
  | [] => none
  | x :: xs => some ((x :: xs).foldl (modeBest (x :: xs)) x)

/-! ## Pearson correlation (`Series.corr`) -/

/-- Exact encoding of a (possibly irrational) Pearson correlation value
`cov / sqrt(varProd)` with `varProd > 0`: the sign and every threshold
comparison `|c| > t` are recoverable as `cov ^ 2 > t ^ 2 * varProd`. -/
structure Corr where
  cov : ℚ
  varProd : ℚ
deriving DecidableEq, Repr

/-- The correlation sample: `Series.corr` drops every pair with a missing
component.  `Your Rating` is always present, so exactly the records with a
present platform (IMDb) rating contribute a pair. -/
def corrSample (df : List Record) : List (ℚ × ℚ) :=
  df.filterMap (fun r => r.imdbRating.map (fun p => ((r.yourRating : ℚ), p)))

/-- `df['Your Rating'].corr(df['IMDb Rating'])`: NaN (`none`) when fewer
than two complete pairs exist or one of the samples has zero variance
(pandas computes 0/0 = NaN); otherwise the encoded value with
`cov = Σ (x-mx)(y-my)` and `varProd = Σ(x-mx)² · Σ(y-my)²`.  (The common
`1/(n-1)` factors cancel in the ratio, so they are omitted.) -/
def pearson (xs : List (ℚ × ℚ)) : Option Corr :=
  if xs.length < 2 then none
  else
    let n : ℚ := (xs.length : ℚ)
    let mx := (xs.map Prod.fst).sum / n
    let my := (xs.map Prod.snd).sum / n
    let cov := (xs.map (fun p => (p.1 - mx) * (p.2 - my))).sum
    let vx := (xs.map (fun p => (p.1 - mx) ^ 2)).sum
    let vy := (xs.map (fun p => (p.2 - my) ^ 2)).sum
    if vx = 0 || vy = 0 then none else some ⟨cov, vx * vy⟩

/-! ## `basic_statistics` (source lines 49–70) -/

/-- The dictionary built by `basic_statistics`. -/
structure BasicStats where
  total_entries : Nat
  movies : Nat
  tv_series : Nat
  tv_episodes : Nat
  avg_rating : Option ℚ
  most_common_rating : Int
  imdb_correlation : Option Corr
deriving DecidableEq, Repr

/-- `basic_statistics`: dataset-wide counts, mean, mode and correlation.
On an empty dataset `mode().iloc[0]` raises `IndexError` while building the
dictionary, so the whole call fails. -/
def basic_statistics (df : List Record) : Except String BasicStats :=
  match modeSmallest (df.map (fun r => r.yourRating)) with
  | none => .error "IndexError"
  | some m =>
    .ok { total_entries := df.length
          movies := (df.filter (fun r => r.titleType = "Movie")).length
          tv_series := (df.filter (fun r => r.titleType = "TV Series")).length
          tv_episodes := (df.filter (fun r => r.titleType = "TV Episode")).length
          avg_rating := meanInt (df.map (fun r => r.yourRating))
          most_common_rating := m
          imdb_correlation := pearson (corrSample df) }

/-! ## `yearly_evolution` (source lines 72–87) -/

/-- Ascending insertion into a duplicate-free sorted list of years. -/
def insertIntAsc (n : Int) : List Int → List Int
  | [] => [n]
  | m :: rest =>
    if n < m then n :: m :: rest
    else if n = m then m :: rest
    else m :: insertIntAsc n rest

/-- The distinct rating years, ascending (`groupby` sorts its keys). -/
def sortedYears (df : List Record) : List Int :=
  (df.map Record.ratingYear).foldl (fun acc y => insertIntAsc y acc) []

/-- One row of `yearly_stats`: count, mean and std of the user rating, mean
IMDb rating, mean release year and mean content age, each mean rounded to 2
decimal places (`.round(2)`); the std is represented by the sample variance
(see `sampleVarInt`), whose displayed rounding is not modelled. -/
structure YearRow where
  year : Int
  count : Nat
  avg_your_rating : Option ℚ
  var_your_rating : Option ℚ
  avg_imdb_rating : Option ℚ
  avg_content_year : Option ℚ
  avg_content_age : Option ℚ
deriving DecidableEq, Repr

/-- `yearly_evolution`: group the records by rating year (keys ascending)
and aggregate each group. -/
def yearly_evolution (refYear : Int) (df : List Record) : List YearRow :=
  (sortedYears df).map (fun y =>
    let g := df.filter (fun r => r.ratingYear = y)
    let ratings := g.map (fun r => r.yourRating)
    { year := y
      count := g.length
      avg_your_rating := (meanInt ratings).map round2
      var_your_rating := sampleVarInt ratings
      avg_imdb_rating := (meanOpt (g.map (fun r => r.imdbRating))).map round2
      avg_content_year := (meanOpt (g.map (fun r => r.year.map (fun v => (v : ℚ))))).map round2
      avg_content_age :=
        (meanOpt (g.map (fun r => (contentAge refYear r).map (fun v => (v : ℚ))))).map round2 })

/-! ## `analyze_directors` (source lines 89–121) -/

/-- All director tokens of the dataset, in record order
(lines 92–96: split every record's `Directors` field and concatenate). -/
def directorTokens (df : List Record) : List String :=
  ((df.map (fun r => r.directors)).map splitField).flatten

/-- `director_counts.most_common(15)` (lines 98–99). -/
def top_directors (df : List Record) : List (String × Nat) :=
  most_common 15 (counterItems (directorTokens df))

/-- One entry of `self.director_analysis` (lines 106–112); the std is
represented by the sample variance, and `Latest_Work` keeps the date value
whose `%Y-%m-%d` rendering the source stores. -/
structure DirectorRow where
  director : String
  count : Nat
  avg_rating : Option ℚ
  var_rating : Option ℚ
  latest_work : Option Date
deriving DecidableEq, Repr

/-- `df[df['Directors'].str.contains(director, na=False)]` (line 105). -/
def director_works (df : List Record) (d : String) : List Record :=
  df.filter (fun r => strContains r.directors d)

/-- `analyze_directors`: of the top 15 tokens by frequency, every nonempty
token with count ≥ 5 gets a detailed row (`if director and count >= 5`),
whose statistics range over the records whose raw `Directors` field
contains the token as a substring. -/
def analyze_directors (df : List Record) : List DirectorRow :=
  (top_directors df).filterMap (fun p =>
    if p.1 ≠ "" ∧ 5 ≤ p.2 then
      let works := director_works df p.1
      some { director := p.1
             count := p.2
             avg_rating := meanInt (works.map (fun r => r.yourRating))
             var_rating := sampleVarInt (works.map (fun r => r.yourRating))
             latest_work := maxDate (works.map (fun r => r.dateRated)) }
    else none)

/-! ## `analyze_genres` (source lines 123–143) -/

/-- All genre tokens of the dataset, in record order (lines 125–129). -/
def genreTokens (df : List Record) : List String :=
  ((df.map (fun r => r.genres)).map splitField).flatten

/-- `genre_counts.most_common(15)` (lines 131–132) — also the function's
return value. -/
def analyze_genres (df : List Record) : List (String × Nat) :=
  most_common 15 (counterItems (genreTokens df))

/-- One line of the genre report printed in lines 136–141. -/
structure GenreRow where
  genre : String
  count : Nat
  percentage : ℚ
  avg_rating : Option ℚ
deriving DecidableEq, Repr

/-- The per-genre detail lines (lines 136–141): every nonempty top-15 token
(`if genre:` — no count threshold) gets average rating over the records
whose raw `Genres` field contains it as a substring, and its share of all
records.  (The division by `len(self.df)` is only reached when the
dataset is nonempty, since otherwise there are no tokens.) -/
def genre_stats (df : List Record) : List GenreRow :=
  (analyze_genres df).filterMap (fun p =>
    if p.1 ≠ "" then
      some { genre := p.1
             count := p.2
             percentage := (p.2 : ℚ) / (df.length : ℚ) * 100
             avg_rating :=
               meanInt ((df.filter (fun r => strContains r.genres p.1)).map
                 (fun r => r.yourRating)) }
    else none)

/-! ## `rating_patterns` (source lines 145–163) -/

/-- The data computed by `rating_patterns`: the rating histogram
(`value_counts().sort_index()`, with each percentage of the total), and the
high (≥ 8) / low (≤ 5) band counts and percentages. -/
structure RatingPatterns where
  distribution : List (Int × Nat × ℚ)
  high_ratings : Nat
  low_ratings : Nat
  high_pct : ℚ
  low_pct : ℚ
deriving DecidableEq, Repr

/-- Distinct observed ratings, ascending. -/
def sortedRatings (df : List Record) : List Int :=
  (df.map (fun r => r.yourRating)).foldl (fun acc v => insertIntAsc v acc) []

/-- `rating_patterns`: on an empty dataset the band percentages at line 160
divide by `len(self.df) = 0`, raising `ZeroDivisionError`. -/
def rating_patterns (df : List Record) : Except String RatingPatterns :=
  match df with
  | [] => .error "ZeroDivisionError"
  | _ =>
    let n : ℚ := (df.length : ℚ)
    .ok { distribution :=
            (sortedRatings df).map (fun v =>
              let c := (df.filter (fun r => r.yourRating = v)).length
              (v, c, (c : ℚ) / n * 100))
          high_ratings := (df.filter (fun r => 8 ≤ r.yourRating)).length
          low_ratings := (df.filter (fun r => r.yourRating ≤ 5)).length
          high_pct := ((df.filter (fun r => 8 ≤ r.yourRating)).length : ℚ) / n * 100
          low_pct := ((df.filter (fun r => r.yourRating ≤ 5)).length : ℚ) / n * 100 }

/-! ## `content_age_analysis` (source lines 165–177) -/

/-- The five `pd.cut` labels, in bin order. -/
def ageBucketLabels : List String :=
  ["Very Recent (0-5y)", "Recent (6-15y)", "Older (16-30y)",
   "Classic (31-50y)", "Very Classic (50y+)"]

/-- `pd.cut(_, bins=[-1, 5, 15, 30, 50, 100], labels=...)` with the default
`right=True`: the intervals (-1,5], (5,15], (15,30], (30,50], (50,100].
A value outside every bin (age ≤ -1 or age > 100) gets no label (pandas
NaN), exactly like a missing value. -/
def ageBucketOf (age : Int) : Option String :=
  if age ≤ -1 then none
  else if age ≤ 5 then some "Very Recent (0-5y)"
  else if age ≤ 15 then some "Recent (6-15y)"
  else if age ≤ 30 then some "Older (16-30y)"
  else if age ≤ 50 then some "Classic (31-50y)"
  else if age ≤ 100 then some "Very Classic (50y+)"
  else none

/-- The `Age_Group` column: undefined content age (missing release year)
yields no label. -/
def contentAgeGroup (refYear : Int) (r : Record) : Option String :=
  (contentAge refYear r).bind ageBucketOf

/-- `content_age_analysis`: `groupby('Age_Group')` over the categorical
column lists every category (pandas `observed=False` default), with count
and mean user rating (rounded) per bucket; records without a label belong
to no group. -/
def content_age_analysis (refYear : Int) (df : List Record) :
    List (String × Nat × Option ℚ) :=
  ageBucketLabels.map (fun lab =>
    let g := df.filter (fun r => contentAgeGroup refYear r = some lab)
    (lab, g.length, (meanInt (g.map (fun r => r.yourRating))).map round2))

/-! ## Chart data preparation (`create_visualizations`, source lines 249–288) -/

/-- Genre share of one rating year (lines 249–256): guarded against an
empty year group (`if total_count > 0 else 0`). -/
def genreYearPercentage (df : List Record) (genre : String) (y : Int) : ℚ :=
  let year_data := df.filter (fun r => r.ratingYear = y)
  let genre_count := (year_data.filter (fun r => strContains r.genres genre)).length
  if 0 < year_data.length then (genre_count : ℚ) / (year_data.length : ℚ) * 100 else 0

/-- Share of ratings ≥ 8 in one rating year (lines 283–288): guarded
against an empty year group (`if total_ratings > 0 else 0`). -/
def generosityPercentage (df : List Record) (y : Int) : ℚ :=
  let year_data := df.filter (fun r => r.ratingYear = y)
  let high := (year_data.filter (fun r => 8 ≤ r.yourRating)).length
  if 0 < year_data.length then (high : ℚ) / (year_data.length : ℚ) * 100 else 0

/-! ## `generate_insights` (source lines 311–353) -/

/-- The alignment label (line 326):
`'Strong' if abs(c) > 0.7 else 'Moderate' if abs(c) > 0.4 else 'Weak'`.
With `c = cov / sqrt(varProd)` and `varProd > 0`, the comparison
`abs(c) > t` is exactly `cov² > t² · varProd`.  When the correlation is
NaN (`none`) every float comparison is false, so the label is `"Weak"`
and no exception occurs. -/
def alignmentLabel : Option Corr → String
  | none => "Weak"
  | some c =>
    if c.cov ^ 2 > 49 / 100 * c.varProd then "Strong"
    else if c.cov ^ 2 > 16 / 100 * c.varProd then "Moderate"
    else "Weak"

/-- `yearly_stats['Count'].idxmax()`: the year of the first row attaining
the maximal count (ties keep the earliest year, since rows are ascending
by year); `none` on an empty frame. -/
def idxmaxCount : List YearRow → Option Int
  | [] => none
  | r :: rest =>
    some ((rest.foldl
      (fun best row => if best.2 < row.count then (row.year, row.count) else best)
      (r.year, r.count)).1)

/-- `yearly_stats['Avg_Your_Rating'].idxmax()`: the year of the first row
attaining the maximal mean rating.  Every year group is nonempty, so the
mean is always present; `getD 0` only serves totality. -/
def idxmaxAvg : List YearRow → Option Int
  | [] => none
  | r :: rest =>
    some ((rest.foldl
      (fun best row =>
        if best.2 < row.avg_your_rating.getD 0 then (row.year, row.avg_your_rating.getD 0)
        else best)
      (r.year, r.avg_your_rating.getD 0)).1)

/-- The dictionary returned by `generate_insights`. -/
structure Insights where
  avg_rating : Option ℚ
  correlation : Option Corr
  alignment : String
  generosity : ℚ
  style : String
  peak_volume_year : Int
  peak_quality_year : Int
deriving DecidableEq, Repr

/-- `generate_insights`: recomputes `basic_statistics` (propagating its
failure on an empty dataset), derives the generosity percentage
(`>= 7` threshold over all records), the style label (`> 60` / `> 40`),
and the peak years from the yearly rollup (`idxmax` raises on an empty
frame, which can only happen when the dataset is empty and
`basic_statistics` has already failed). -/
def generate_insights (refYear : Int) (df : List Record) : Except String Insights :=
  match basic_statistics df with
  | .error e => .error e
  | .ok stats =>
    let gp := ((df.filter (fun r => 7 ≤ r.yourRating)).length : ℚ) / (df.length : ℚ) * 100
    let style :=
      if gp > 60 then "Very generous"
      else if gp > 40 then "Moderately generous"
      else "Selective"
    let ys := yearly_evolution refYear df
    match idxmaxCount ys, idxmaxAvg ys with
    | some pv, some pq =>
      .ok { avg_rating := stats.avg_rating
            correlation := stats.imdb_correlation
            alignment := alignmentLabel stats.imdb_correlation
            generosity := gp
            style := style
            peak_volume_year := pv
            peak_quality_year := pq }
    | _, _ => .error "ValueError"

/-! ## `run_complete_analysis` (source lines 355–385) -/

/-- The consolidated result bundle returned by `run_complete_analysis`,
together with the remaining per-stage outputs the pipeline computes. -/
structure ResultBundle where
  basic_stats : BasicStats
  yearly_data : List YearRow
  director_data : List DirectorRow
  genre_data : List (String × Nat)
  patterns : RatingPatterns
  age_data : List (String × Nat × Option ℚ)
  insights : Insights
deriving DecidableEq, Repr

/-- `run_complete_analysis`: run every stage in order over the same loaded
record sequence and collect the outputs; the first stage failure aborts the
run. -/
def run_complete_analysis (refYear : Int) (df : List Record) :
    Except String ResultBundle :=
  match basic_statistics df, rating_patterns df, generate_insights refYear df with
  | .ok b, .ok p, .ok i =>
    .ok { basic_stats := b
          yearly_data := yearly_evolution refYear df
          director_data := analyze_directors df
          genre_data := analyze_genres df
          patterns := p
          age_data := content_age_analysis refYear df
          insights := i }
  | .error e, _, _ => .error e
  | .ok _, .error e, _ => .error e
  | .ok _, .ok _, .error e => .error e

/-! ## Concrete datasets used by the claim theorems -/

/-- Claim C3's input: five records whose `Directors` field is exactly
`"Nolan, C."`. -/
def dfNolan : List Record :=
  [⟨"Movie", 10, none, none, ⟨2020, 1, 1⟩, none, some "Nolan, C."⟩,
   ⟨"Movie", 10, none, none, ⟨2020, 1, 2⟩, none, some "Nolan, C."⟩,
   ⟨"Movie", 10, none, none, ⟨2020, 1, 3⟩, none, some "Nolan, C."⟩,
   ⟨"Movie", 10, none, none, ⟨2020, 1, 4⟩, none, some "Nolan, C."⟩,
   ⟨"Movie", 10, none, none, ⟨2020, 1, 5⟩, none, some "Nolan, C."⟩]

/-- Four records with genre `"Drama"` and director `"Smith"`: a token with
count 4 in both fields. -/
def dfDrama4 : List Record :=
  [⟨"Movie", 8, none, none, ⟨2020, 1, 1⟩, some "Drama", some "Smith"⟩,
   ⟨"Movie", 8, none, none, ⟨2020, 1, 2⟩, some "Drama", some "Smith"⟩,
   ⟨"Movie", 8, none, none, ⟨2020, 1, 3⟩, some "Drama", some "Smith"⟩,
   ⟨"Movie", 8, none, none, ⟨2020, 1, 4⟩, some "Drama", some "Smith"⟩]

/-- Five records directed by `"Nolan"` (rating 10) plus one directed by
`"Nolanson"` (rating 2): `"Nolan"` is a substring of `"Nolanson"` without
being listed as a token there. -/
def dfNolanson : List Record :=
  [⟨"Movie", 10, none, none, ⟨2020, 1, 1⟩, none, some "Nolan"⟩,
   ⟨"Movie", 10, none, none, ⟨2020, 1, 2⟩, none, some "Nolan"⟩,
   ⟨"Movie", 10, none, none, ⟨2020, 1, 3⟩, none, some "Nolan"⟩,
   ⟨"Movie", 10, none, none, ⟨2020, 1, 4⟩, none, some "Nolan"⟩,
   ⟨"Movie", 10, none, none, ⟨2020, 1, 5⟩, none, some "Nolan"⟩,
   ⟨"Movie", 2, none, none, ⟨2020, 1, 6⟩, none, some "Nolanson"⟩]

/-- A single record whose title type is none of Movie / TV Series /
TV Episode. -/
def dfShort : List Record :=
  [⟨"Short", 8, none, none, ⟨2020, 1, 1⟩, none, none⟩]

/-- A single movie record. -/
def dfMovie1 : List Record :=
  [⟨"Movie", 8, none, none, ⟨2020, 1, 1⟩, none, none⟩]

/-- Claim C8's input: ratings 9/7/9, platform ratings 8.5/7.0/9.0, rated on
2020-01-01, 2020-06-01 and 2021-01-01. -/
def dfYearly : List Record :=
  [⟨"Movie", 9, some (17 / 2), none, ⟨2020, 1, 1⟩, none, none⟩,
   ⟨"Movie", 7, some 7, none, ⟨2020, 6, 1⟩, none, none⟩,
   ⟨"Movie", 9, some 9, none, ⟨2021, 1, 1⟩, none, none⟩]

/-- A record released in 1924: content age 101 in reference year 2025. -/
def recOld : Record := ⟨"Movie", 8, none, some 1924, ⟨2025, 1, 1⟩, none, none⟩

/-- A record with no release year: content age undefined. -/
def recNoYear : Record := ⟨"Movie", 8, none, none, ⟨2025, 1, 1⟩, none, none⟩

/-! ## Helper lemmas -/

/-- A counter entry's count is the list multiplicity of its key. -/
lemma counterItems_count {α} [DecidableEq α] (l : List α) (t : α) (c : Nat)
    (h : (t, c) ∈ counterItems l) : c = l.count t := by
  simp only [counterItems] at h
  rcases List.mem_map.mp h with ⟨a, -, heq⟩
  cases heq
  rfl

/-- The three title-type filters are pairwise disjoint, so their lengths add
up to the length of the disjunctive filter. -/
lemma filter_three_length (df : List Record) :
    (df.filter (fun r => r.titleType = "Movie")).length
      + (df.filter (fun r => r.titleType = "TV Series")).length
      + (df.filter (fun r => r.titleType = "TV Episode")).length
      = (df.filter (fun r =>
          r.titleType = "Movie" ∨ r.titleType = "TV Series" ∨ r.titleType = "TV Episode")).length := by
  induction df with
  | nil => rfl
  | cons r t ih =>
    simp only [List.filter_cons]
    by_cases h1 : r.titleType = "Movie" <;>
      by_cases h2 : r.titleType = "TV Series" <;>
        by_cases h3 : r.titleType = "TV Episode" <;>
          simp_all <;> omega

/-- On a nonempty dataset `basic_statistics` succeeds, and its fields are
the stated aggregates. -/
lemma basic_statistics_fields (df : List Record) (h : df ≠ []) :
    ∃ s, basic_statistics df = Except.ok s
      ∧ s.total_entries = df.length
      ∧ s.movies = (df.filter (fun r => r.titleType = "Movie")).length
      ∧ s.tv_series = (df.filter (fun r => r.titleType = "TV Series")).length
      ∧ s.tv_episodes = (df.filter (fun r => r.titleType = "TV Episode")).length
      ∧ s.avg_rating = meanInt (df.map (fun r => r.yourRating))
      ∧ s.imdb_correlation = pearson (corrSample df) := by
  match df with
  | [] => exact absurd rfl h
  | r :: t =>
    unfold basic_statistics
    simp only [List.map_cons, modeSmallest]
    exact ⟨_, rfl, rfl, rfl, rfl, rfl, rfl, rfl⟩

lemma insertIntAsc_ne_nil (n : Int) (l : List Int) : insertIntAsc n l ≠ [] := by
  cases l with
  | nil => simp [insertIntAsc]
  | cons m rest =>
    simp only [insertIntAsc]
    split_ifs <;> simp

lemma foldl_insertIntAsc_ne_nil (l : List Int) (acc : List Int) (h : acc ≠ []) :
    l.foldl (fun a y => insertIntAsc y a) acc ≠ [] := by
  induction l generalizing acc with
  | nil => simpa
  | cons y ys ih =>
    simp only [List.foldl_cons]
    exact ih _ (insertIntAsc_ne_nil y acc)

lemma sortedYears_ne_nil (df : List Record) (h : df ≠ []) : sortedYears df ≠ [] := by
  match df with
  | [] => exact absurd rfl h
  | r :: t =>
    unfold sortedYears
    simp only [List.map_cons, List.foldl_cons]
    exact foldl_insertIntAsc_ne_nil _ _ (insertIntAsc_ne_nil _ _)

lemma yearly_evolution_ne_nil (refYear : Int) (df : List Record) (h : df ≠ []) :
    yearly_evolution refYear df ≠ [] := by
  unfold yearly_evolution
  intro hmap
  exact sortedYears_ne_nil df h (List.map_eq_nil_iff.mp hmap)

/-- On a nonempty dataset `rating_patterns` succeeds. -/
lemma rating_patterns_ok (df : List Record) (h : df ≠ []) :
    ∃ p, rating_patterns df = Except.ok p := by
  match df with
  | [] => exact absurd rfl h
  | r :: t => exact ⟨_, rfl⟩

/-- On a nonempty dataset `generate_insights` succeeds, and its correlation
and alignment fields come from the Pearson correlation of the sample. -/
lemma generate_insights_fields (refYear : Int) (df : List Record) (h : df ≠ []) :
    ∃ i, generate_insights refYear df = Except.ok i
      ∧ i.correlation = pearson (corrSample df)
      ∧ i.alignment = alignmentLabel (pearson (corrSample df)) := by
  obtain ⟨s, hs, -, -, -, -, -, hcorr⟩ := basic_statistics_fields df h
  rcases hy : yearly_evolution refYear df with _ | ⟨y, ys⟩
  · exact absurd hy (yearly_evolution_ne_nil refYear df h)
  · simp only [generate_insights, hs, hy, idxmaxCount, idxmaxAvg]
    exact ⟨_, rfl, hcorr, by rw [hcorr]⟩

/-- The correlation sample consists of exactly the records whose platform
rating is present, paired with their two ratings. -/
lemma corrSample_eq_filter (df : List Record) :
    corrSample df = (df.filter (fun r => r.imdbRating.isSome)).map
      (fun r => ((r.yourRating : ℚ), r.imdbRating.getD 0)) := by
  induction df with
  | nil => rfl
  | cons r t ih =>
    rcases hr : r.imdbRating with _ | v <;>
      simp [corrSample, List.filterMap_cons, List.filter_cons, hr, ih] <;>
        simp [corrSample] at ih <;> exact ih

lemma corrSample_nil_of_none (df : List Record) (h : ∀ r ∈ df, r.imdbRating = none) :
    corrSample df = [] := by
  rw [corrSample_eq_filter]
  have hf : df.filter (fun r => r.imdbRating.isSome) = [] :=
    List.filter_eq_nil_iff.mpr (fun r hr => by simp [h r hr])
  rw [hf]
  rfl

lemma pearson_none_of_short (xs : List (ℚ × ℚ)) (h : xs.length < 2) : pearson xs = none := by
  unfold pearson
  rw [if_pos h]

lemma ageBucketOf_mem (age : Int) (lab : String) (h : ageBucketOf age = some lab) :
    lab = "Very Recent (0-5y)" ∨ lab = "Recent (6-15y)" ∨ lab = "Older (16-30y)" ∨
      lab = "Classic (31-50y)" ∨ lab = "Very Classic (50y+)" := by
  unfold ageBucketOf at h
  split_ifs at h <;> simp_all

lemma contentAgeGroup_mem (refYear : Int) (r : Record) (lab : String)
    (h : contentAgeGroup refYear r = some lab) :
    lab = "Very Recent (0-5y)" ∨ lab = "Recent (6-15y)" ∨ lab = "Older (16-30y)" ∨
      lab = "Classic (31-50y)" ∨ lab = "Very Classic (50y+)" := by
  unfold contentAgeGroup at h
  rcases hca : contentAge refYear r with _ | age
  · rw [hca] at h
    simp at h
  · rw [hca] at h
    simp only [Option.some_bind] at h
    exact ageBucketOf_mem age lab h

/-- The five bucket filters partition the records with a defined, in-range
content age. -/
lemma age_filter_sum (refYear : Int) (df : List Record) :
    (df.filter (fun r => contentAgeGroup refYear r = some "Very Recent (0-5y)")).length
    + (df.filter (fun r => contentAgeGroup refYear r = some "Recent (6-15y)")).length
    + (df.filter (fun r => contentAgeGroup refYear r = some "Older (16-30y)")).length
    + (df.filter (fun r => contentAgeGroup refYear r = some "Classic (31-50y)")).length
    + (df.filter (fun r => contentAgeGroup refYear r = some "Very Classic (50y+)")).length
    = (df.filter (fun r => (contentAgeGroup refYear r).isSome)).length := by
  induction df with
  | nil => rfl
  | cons r t ih =>
    simp only [List.filter_cons]
    rcases hg : contentAgeGroup refYear r with _ | lab
    · simp [hg]
      omega
    · rcases contentAgeGroup_mem refYear r lab hg with h | h | h | h | h <;> subst h <;>
        simp [hg] <;> omega

/-- The bucket counts of the age rollup sum to the number of records whose
`Age_Group` label is defined. -/
lemma age_counts_sum (refYear : Int) (df : List Record) :
    ((content_age_analysis refYear df).map (fun x => x.2.1)).sum
      = (df.filter (fun r => (contentAgeGroup refYear r).isSome)).length := by
  simp only [content_age_analysis, ageBucketLabels, List.map_cons, List.map_nil,
    List.sum_cons, List.sum_nil]
  have h := age_filter_sum refYear df
  omega

/-! ## Claim C1: the multi-value field splitter -/

/-- C1, counterexample: the splitter does NOT return only non-empty tokens.
A field with an empty piece between commas (here a lone space) yields the
empty string as a token, so the claimed output contract fails on this
input. -/
theorem C1_counterexample :
    splitField (some "Drama, ,Action") = ["Drama", "", "Action"]
    ∧ ¬ (∀ t ∈ splitField (some "Drama, ,Action"), t ≠ "") := by decide

/-- C1, amended: for every nullable raw multi-value field the splitter
returns the ordered sequence of trimmed tokens obtained by splitting on a
single comma — absent or empty input yields the empty sequence, a token
listed twice is kept twice and contributes two counts (a counter entry's
count is the token's multiplicity) — but tokens may be empty: empty pieces
between commas are kept as empty-string tokens rather than dropped. -/
theorem C1_theorem :
    splitField none = []
    ∧ splitField (some "") = []
    ∧ splitField (some " Drama , Action ") = ["Drama", "Action"]
    ∧ splitField (some "Drama,Drama") = ["Drama", "Drama"]
    ∧ splitField (some "Drama, ,Action") = ["Drama", "", "Action"]
    ∧ (∀ (l : List String) (t : String) (c : Nat), (t, c) ∈ counterItems l → c = l.count t) := by
  exact ⟨rfl, by decide, by decide, by decide, by decide,
    fun l t c h => counterItems_count l t c h⟩

/-- C1, witness: the duplicated token of a concrete token list is counted
with multiplicity two. -/
theorem C1_witness :
    (2 : Nat) = (["Drama", "Drama", "Action"] : List String).count "Drama" :=
  C1_theorem.2.2.2.2.2 ["Drama", "Drama", "Action"] "Drama" 2 (by decide)

/-! ## Claim C2: genre and director token analysis are NOT identical -/

/-- C2, counterexample: a genre token with count 4 (in the top 15) receives
a detailed statistics row, while the director token with count 4 from the
very same records receives none — so the two fields are not treated
identically and a count-4 token does pass into the genre detail table. -/
theorem C2_counterexample :
    analyze_directors dfDrama4 = []
    ∧ (genre_stats dfDrama4).map (fun row => (row.genre, row.count)) = [("Drama", 4)]
    ∧ ("Drama", 4) ∈ analyze_genres dfDrama4
    ∧ ("Smith", 4) ∈ top_directors dfDrama4 := by decide

/-- C2, amended: both analyses rank tokens by descending frequency and take
the top 15 candidates, but the "at least 5 records" filter applies only to
the director analysis (where count 5 passes and count 4 does not); the
genre analysis computes detailed statistics for every nonempty top-15
token regardless of its count. -/
theorem C2_theorem (df : List Record) :
    (∀ row ∈ analyze_directors df, row.director ≠ "" ∧ 5 ≤ row.count)
    ∧ (∀ p ∈ top_directors df, p.1 ≠ "" → 5 ≤ p.2 →
        ∃ row ∈ analyze_directors df, row.director = p.1 ∧ row.count = p.2)
    ∧ (∀ p ∈ analyze_genres df, p.1 ≠ "" →
        ∃ row ∈ genre_stats df, row.genre = p.1 ∧ row.count = p.2) := by
  refine ⟨?_, ?_, ?_⟩
  · intro row hrow
    rcases List.mem_filterMap.mp hrow with ⟨p, -, hf⟩
    by_cases hc : (p.1 ≠ "" ∧ 5 ≤ p.2)
    · rw [if_pos hc] at hf
      cases Option.some.inj hf
      exact hc
    · rw [if_neg hc] at hf
      cases hf
  · intro p hp h1 h2
    refine ⟨{ director := p.1, count := p.2,
              avg_rating := meanInt ((director_works df p.1).map (fun r => r.yourRating)),
              var_rating := sampleVarInt ((director_works df p.1).map (fun r => r.yourRating)),
              latest_work := maxDate ((director_works df p.1).map (fun r => r.dateRated)) },
            List.mem_filterMap.mpr ⟨p, hp, ?_⟩, rfl, rfl⟩
    rw [if_pos ⟨h1, h2⟩]
  · intro p hp h1
    refine ⟨{ genre := p.1, count := p.2,
              percentage := (p.2 : ℚ) / (df.length : ℚ) * 100,
              avg_rating := meanInt ((df.filter (fun r => strContains r.genres p.1)).map
                (fun r => r.yourRating)) },
            List.mem_filterMap.mpr ⟨p, hp, ?_⟩, rfl, rfl⟩
    rw [if_pos h1]

/-- C2, witness: a director token with count exactly 5 enters the detailed
director table of a concrete dataset. -/
theorem C2_witness :
    ∃ row ∈ analyze_directors dfNolan, row.director = "Nolan" ∧ row.count = 5 :=
  (C2_theorem dfNolan).2.1 ("Nolan", 5) (by decide) (by decide) (by decide)

/-! ## Claim C3: a director name containing a comma is split apart -/

/-- C3, counterexample: with the directors field `"Nolan, C."` on exactly
five records, no detailed table entry carries the token `"Nolan, C."` —
the splitter cuts the name at its comma. -/
theorem C3_counterexample :
    ¬ ∃ row ∈ analyze_directors dfNolan, row.director = "Nolan, C." := by decide

/-- C3, amended: on that five-record input the field is split at the comma
into the tokens `"Nolan"` and `"C."`, and each of those two tokens — not
the full name — enters the detailed table with count 5. -/
theorem C3_theorem :
    (analyze_directors dfNolan).map (fun row => (row.director, row.count))
      = [("Nolan", 5), ("C.", 5)]
    ∧ splitField (some "Nolan, C.") = ["Nolan", "C."] := by decide

/-! ## Claim C4: title-type counts need not sum to the total -/

/-- C4, counterexample: one record of title type `"Short"` gives
`total_entries = 1` while the three title-type counts sum to 0. -/
theorem C4_counterexample :
    ∃ s, basic_statistics dfShort = Except.ok s
      ∧ s.total_entries = 1
      ∧ s.movies + s.tv_series + s.tv_episodes = 0
      ∧ s.movies + s.tv_series + s.tv_episodes ≠ s.total_entries := by
  refine ⟨_, rfl, by decide, by decide, by decide⟩

/-- C4, amended: for every non-empty record sequence `basic_statistics`
succeeds, `total_entries` equals the sequence length, and the three
title-type counts sum to the number of records whose title type is one of
Movie / TV Series / TV Episode — hence at most `total_entries`, with
equality exactly guaranteed when every record has one of those three
types. -/
theorem C4_theorem (df : List Record) (h : df ≠ []) :
    ∃ s, basic_statistics df = Except.ok s
      ∧ s.total_entries = df.length
      ∧ s.movies + s.tv_series + s.tv_episodes
          = (df.filter (fun r =>
              r.titleType = "Movie" ∨ r.titleType = "TV Series" ∨ r.titleType = "TV Episode")).length
      ∧ s.movies + s.tv_series + s.tv_episodes ≤ s.total_entries
      ∧ ((∀ r ∈ df, r.titleType = "Movie" ∨ r.titleType = "TV Series" ∨ r.titleType = "TV Episode")
          → s.movies + s.tv_series + s.tv_episodes = s.total_entries) := by
  obtain ⟨s, hs, htot, hm, hts, hte, -, -⟩ := basic_statistics_fields df h
  refine ⟨s, hs, htot, ?_, ?_, ?_⟩
  · rw [hm, hts, hte, filter_three_length]
  · rw [hm, hts, hte, filter_three_length, htot]
    exact List.length_filter_le _ _
  · intro hall
    rw [hm, hts, hte, filter_three_length, htot]
    exact congrArg List.length (List.filter_eq_self.mpr (fun r hr => by simpa using hall r hr))

/-- C4, witness: the amended statement instantiated at a one-movie
dataset. -/
theorem C4_witness :
    ∃ s, basic_statistics dfMovie1 = Except.ok s
      ∧ s.total_entries = dfMovie1.length
      ∧ s.movies + s.tv_series + s.tv_episodes
          = (dfMovie1.filter (fun r =>
              r.titleType = "Movie" ∨ r.titleType = "TV Series" ∨ r.titleType = "TV Episode")).length
      ∧ s.movies + s.tv_series + s.tv_episodes ≤ s.total_entries
      ∧ ((∀ r ∈ dfMovie1,
            r.titleType = "Movie" ∨ r.titleType = "TV Series" ∨ r.titleType = "TV Episode")
          → s.movies + s.tv_series + s.tv_episodes = s.total_entries) :=
  C4_theorem dfMovie1 (by decide)

/-! ## Claim C5: detailed statistics use substring matching, not exact
token matching -/

/-- C5, counterexample: `"Nolan"` has exactly five records listing it as a
token, but its detailed row averages over SIX records — the record whose
directors field is `"Nolanson"` matches by substring without listing the
token — so the mean is 26/3 instead of the 10 that the claimed
exactly-the-listing-records sample would give (and the latest-work date
comes from the intruding record as well). -/
theorem C5_counterexample :
    analyze_directors dfNolanson
      = [⟨"Nolan", 5, some (26 / 3), some (32 / 3), some ⟨2020, 1, 6⟩⟩]
    ∧ (dfNolanson.filter (fun r => listsTokenSpec r.directors "Nolan")).map
        (fun r => r.yourRating) = [10, 10, 10, 10, 10]
    ∧ meanInt [10, 10, 10, 10, 10] = some 10
    ∧ (26 : ℚ) / 3 ≠ 10 := by
  refine ⟨?_, by decide, by norm_num [meanInt], by norm_num⟩
  have htop : top_directors dfNolanson = [("Nolan", 5), ("Nolanson", 1)] := by decide
  have hworks : director_works dfNolanson "Nolan" = dfNolanson := by decide
  unfold analyze_directors
  rw [htop]
  simp +decide only [List.filterMap_cons, List.filterMap_nil]
  rw [hworks]
  simp +decide only [dfNolanson, List.map_cons, List.map_nil]
  norm_num [meanInt, sampleVarInt, maxDate, dateVal, List.foldl]

/-- C5, amended: every detailed token row (director or genre) computes its
mean/std of user rating and latest rating date over exactly the records
whose RAW field contains the token as a substring (`str.contains`), not
over the records that list the token after splitting; the two samples can
differ, as the counterexample shows. -/
theorem C5_theorem (df : List Record) :
    (∀ p ∈ top_directors df, p.1 ≠ "" → 5 ≤ p.2 →
        ∃ row ∈ analyze_directors df,
          row.director = p.1 ∧ row.count = p.2
          ∧ row.avg_rating = meanInt ((director_works df p.1).map (fun r => r.yourRating))
          ∧ row.var_rating = sampleVarInt ((director_works df p.1).map (fun r => r.yourRating))
          ∧ row.latest_work = maxDate ((director_works df p.1).map (fun r => r.dateRated)))
    ∧ (∀ row ∈ analyze_directors df,
        row.avg_rating = meanInt ((director_works df row.director).map (fun r => r.yourRating))
        ∧ row.var_rating = sampleVarInt ((director_works df row.director).map (fun r => r.yourRating))
        ∧ row.latest_work = maxDate ((director_works df row.director).map (fun r => r.dateRated)))
    ∧ (∀ row ∈ genre_stats df,
        row.avg_rating = meanInt ((df.filter (fun r => strContains r.genres row.genre)).map
          (fun r => r.yourRating))) := by
  refine ⟨?_, ?_, ?_⟩
  · intro p hp h1 h2
    refine ⟨{ director := p.1, count := p.2,
              avg_rating := meanInt ((director_works df p.1).map (fun r => r.yourRating)),
              var_rating := sampleVarInt ((director_works df p.1).map (fun r => r.yourRating)),
              latest_work := maxDate ((director_works df p.1).map (fun r => r.dateRated)) },
            List.mem_filterMap.mpr ⟨p, hp, ?_⟩, rfl, rfl, rfl, rfl, rfl⟩
    rw [if_pos ⟨h1, h2⟩]
  · intro row hrow
    rcases List.mem_filterMap.mp hrow with ⟨p, -, hf⟩
    by_cases hc : (p.1 ≠ "" ∧ 5 ≤ p.2)
    · rw [if_pos hc] at hf
      cases Option.some.inj hf
      exact ⟨rfl, rfl, rfl⟩
    · rw [if_neg hc] at hf
      cases hf
  · intro row hrow
    rcases List.mem_filterMap.mp hrow with ⟨p, -, hf⟩
    by_cases hc : (p.1 ≠ "")
    · rw [if_pos hc] at hf
      cases Option.some.inj hf
      rfl
    · rw [if_neg hc] at hf
      cases hf

/-- C5, witness: the amended statement instantiated at the concrete
dataset with the `"Nolan"` / `"Nolanson"` overlap. -/
theorem C5_witness :
    ∃ row ∈ analyze_directors dfNolanson,
      row.director = "Nolan" ∧ row.count = 5
      ∧ row.avg_rating = meanInt ((director_works dfNolanson "Nolan").map (fun r => r.yourRating))
      ∧ row.var_rating = sampleVarInt ((director_works dfNolanson "Nolan").map (fun r => r.yourRating))
      ∧ row.latest_work = maxDate ((director_works dfNolanson "Nolan").map (fun r => r.dateRated)) :=
  (C5_theorem dfNolanson).1 ("Nolan", 5) (by decide) (by decide) (by decide)

/-! ## Claim C6: correlation sample restriction and absent correlation -/

/-- C6: the Pearson correlation is computed over exactly the records whose
platform rating is present (absent values are excluded from the sample,
never treated as zero); when every record lacks a platform rating the
sample is empty, the reported correlation is absent (`none`, pandas NaN)
rather than zero, and the alignment-label computation still completes,
yielding `"Weak"` (every float comparison against NaN is false). -/
theorem C6_theorem (df : List Record) (refYear : Int) (hne : df ≠ [])
    (hno : ∀ r ∈ df, r.imdbRating = none) :
    (∀ df2 : List Record, corrSample df2 = (df2.filter (fun r => r.imdbRating.isSome)).map
        (fun r => ((r.yourRating : ℚ), r.imdbRating.getD 0)))
    ∧ corrSample df = []
    ∧ (∃ s, basic_statistics df = Except.ok s ∧ s.imdb_correlation = none
        ∧ alignmentLabel s.imdb_correlation = "Weak")
    ∧ (∃ i, generate_insights refYear df = Except.ok i ∧ i.correlation = none
        ∧ i.alignment = "Weak") := by
  have hnil : corrSample df = [] := corrSample_nil_of_none df hno
  have hp : pearson (corrSample df) = none := by rw [hnil]; rfl
  refine ⟨corrSample_eq_filter, hnil, ?_, ?_⟩
  · obtain ⟨s, hs, -, -, -, -, -, hcorr⟩ := basic_statistics_fields df hne
    refine ⟨s, hs, ?_, ?_⟩
    · rw [hcorr, hp]
    · rw [hcorr, hp]
      rfl
  · obtain ⟨i, hi, hcorr, halign⟩ := generate_insights_fields refYear df hne
    refine ⟨i, hi, ?_, ?_⟩
    · rw [hcorr, hp]
    · rw [halign, hp]
      rfl

/-- C6, witness: on a concrete dataset with no platform ratings at all the
insight generation succeeds with an absent correlation and a `"Weak"`
alignment label. -/
theorem C6_witness :
    ∃ i, generate_insights 2025 dfNolan = Except.ok i ∧ i.correlation = none
      ∧ i.alignment = "Weak" :=
  (C6_theorem dfNolan 2025 (by decide) (by decide)).2.2.2

/-! ## Claim C7: the age buckets cover only content ages in (-1, 100] -/

/-- C7, counterexample: a record released in 1924 has the well-defined
content age 101 in reference year 2025, yet it is assigned to NO bucket —
`pd.cut` leaves values beyond the last bin edge (100) unlabelled — refuting
the claim that every record with a defined content age lands in one of the
five buckets. -/
theorem C7_counterexample :
    contentAge 2025 recOld = some 101 ∧ contentAgeGroup 2025 recOld = none := by decide

/-- C7, amended: the five buckets are exactly the half-open intervals
(-1,5], (5,15], (15,30], (30,50], (50,100] — in particular age 5 falls in
the 0–5 bucket and age 6 in the 6–15 bucket — a defined content age gets a
bucket exactly when it lies in (-1, 100] (ages ≤ -1 or > 100 are excluded
despite being defined), records with undefined content age get no bucket,
and the rollup counts exactly the records with a bucket label. -/
theorem C7_theorem :
    (∀ age : Int, ageBucketOf age = some "Very Recent (0-5y)" ↔ -1 < age ∧ age ≤ 5)
    ∧ (∀ age : Int, ageBucketOf age = some "Recent (6-15y)" ↔ 5 < age ∧ age ≤ 15)
    ∧ (∀ age : Int, ageBucketOf age = some "Older (16-30y)" ↔ 15 < age ∧ age ≤ 30)
    ∧ (∀ age : Int, ageBucketOf age = some "Classic (31-50y)" ↔ 30 < age ∧ age ≤ 50)
    ∧ (∀ age : Int, ageBucketOf age = some "Very Classic (50y+)" ↔ 50 < age ∧ age ≤ 100)
    ∧ (∀ age : Int, (ageBucketOf age).isSome ↔ -1 < age ∧ age ≤ 100)
    ∧ ageBucketOf 5 = some "Very Recent (0-5y)"
    ∧ ageBucketOf 6 = some "Recent (6-15y)"
    ∧ (∀ (refYear : Int) (r : Record), r.year = none → contentAgeGroup refYear r = none)
    ∧ (∀ (refYear : Int) (df : List Record),
        ((content_age_analysis refYear df).map (fun x => x.2.1)).sum
          = (df.filter (fun r => (contentAgeGroup refYear r).isSome)).length) := by
  refine ⟨fun age => ?_, fun age => ?_, fun age => ?_, fun age => ?_, fun age => ?_,
    fun age => ?_, by decide, by decide, fun refYear r hy => ?_, age_counts_sum⟩
  all_goals first
    | (unfold ageBucketOf; split_ifs <;> simp_all <;> omega)
    | (unfold contentAgeGroup contentAge; rw [hy]; rfl)

/-- C7, witness: a concrete record without a release year is excluded from
the age grouping. -/
theorem C7_witness : contentAgeGroup 2025 recNoYear = none :=
  C7_theorem.2.2.2.2.2.2.2.2.1 2025 recNoYear rfl

/-! ## Claim C8: the yearly rollup on the three-record example -/

/-- C8: on the example input the yearly rollup reports for 2020 a count of
2 and mean user rating 8.0 (sample variance 2, i.e. std √2), and for 2021 a
count of 1, mean 9.0 and an ABSENT standard deviation (variance `none`);
in general the sample standard deviation of any single-record group is
reported as absent rather than raising. -/
theorem C8_theorem :
    yearly_evolution 2025 dfYearly =
      [⟨2020, 2, some 8, some 2, some (31 / 4), none, none⟩,
       ⟨2021, 1, some 9, none, some 9, none, none⟩]
    ∧ (∀ x : Int, sampleVarInt [x] = none) := by
  constructor
  · have hy : sortedYears dfYearly = [2020, 2021] := by decide
    unfold yearly_evolution
    rw [hy]
    simp +decide only [List.map_cons, List.map_nil, dfYearly, List.filter_cons, List.filter_nil,
      Record.ratingYear]
    norm_num [meanInt, sampleVarInt, meanOpt, mean, round2, roundHalfEven, contentAge,
      List.filterMap, Rat.den_ofNat, Rat.num_ofNat]
  · intro x
    simp [sampleVarInt, meanInt]

/-! ## Claim C9: empty-input behaviour of the aggregations -/

/-- C9, counterexample: on the EMPTY record sequence the aggregation
operations do fail rather than reporting absent values — `basic_statistics`
raises `IndexError` (from `mode().iloc[0]`) and `rating_patterns` raises
`ZeroDivisionError` (its band percentages divide by `len(df) = 0` without a
guard) — refuting the claim for empty inputs. -/
theorem C9_counterexample :
    basic_statistics [] = Except.error "IndexError"
    ∧ rating_patterns [] = Except.error "ZeroDivisionError" := ⟨rfl, rfl⟩

/-- C9, amended: on every NONEMPTY record sequence the aggregation stages
complete; the degenerate statistics inside them report absent values (mean
of an empty selection, sample std of a single-element sample, Pearson
correlation of a sample with fewer than two pairs are all `none`), and the
guarded per-year percentage computations of the charting code yield 0 on an
empty year group; only the empty dataset makes the mode lookup and the
unguarded band percentages fail, as the counterexample shows. -/
theorem C9_theorem (df : List Record) (g : String) (y : Int) (x : Int) (refYear : Int)
    (hne : df ≠ []) (hy : df.filter (fun r => r.ratingYear = y) = []) :
    (∃ s, basic_statistics df = Except.ok s)
    ∧ (∃ p, rating_patterns df = Except.ok p)
    ∧ (∃ i, generate_insights refYear df = Except.ok i)
    ∧ meanInt [] = none
    ∧ sampleVarInt [x] = none
    ∧ (∀ xs : List (ℚ × ℚ), xs.length < 2 → pearson xs = none)
    ∧ genreYearPercentage df g y = 0
    ∧ generosityPercentage df y = 0 := by
  obtain ⟨s, hs, -, -, -, -, -, -⟩ := basic_statistics_fields df hne
  obtain ⟨p, hp⟩ := rating_patterns_ok df hne
  obtain ⟨i, hi, -, -⟩ := generate_insights_fields refYear df hne
  refine ⟨⟨s, hs⟩, ⟨p, hp⟩, ⟨i, hi⟩, rfl, ?_, pearson_none_of_short, ?_, ?_⟩
  · simp [sampleVarInt, meanInt]
  · simp [genreYearPercentage, hy]
  · simp [generosityPercentage, hy]

/-- C9, witness: the amended statement instantiated at a concrete nonempty
dataset and a year with no records. -/
theorem C9_witness :
    (∃ s, basic_statistics dfNolan = Except.ok s)
    ∧ (∃ p, rating_patterns dfNolan = Except.ok p)
    ∧ (∃ i, generate_insights 2025 dfNolan = Except.ok i)
    ∧ meanInt [] = none
    ∧ sampleVarInt [3] = none
    ∧ (∀ xs : List (ℚ × ℚ), xs.length < 2 → pearson xs = none)
    ∧ genreYearPercentage dfNolan "Drama" 1999 = 0
    ∧ generosityPercentage dfNolan 1999 = 0 :=
  C9_theorem dfNolan "Drama" 1999 3 2025 (by decide) (by decide)

/-! ## Claim C10: determinism of the pipeline at a fixed reference year -/

/-- C10: with the reference calendar year held fixed, the whole pipeline is
deterministic — every stage is a pure function of the reference year and
the record sequence (the only run-dependent input of the source,
`datetime.now().year`, is the explicit `refYear` parameter), so two runs
over the same input produce identical basic statistics, yearly rollups,
director and genre tables, rating distribution, age-bucket rollup and
insight labels. -/
theorem C10_theorem (refYear : Int) (df : List Record) :
    run_complete_analysis refYear df = run_complete_analysis refYear df
    ∧ basic_statistics df = basic_statistics df
    ∧ yearly_evolution refYear df = yearly_evolution refYear df
    ∧ analyze_directors df = analyze_directors df
    ∧ analyze_genres df = analyze_genres df
    ∧ genre_stats df = genre_stats df
    ∧ rating_patterns df = rating_patterns df
    ∧ content_age_analysis refYear df = content_age_analysis refYear df
    ∧ generate_insights refYear df = generate_insights refYear df :=
  ⟨rfl, rfl, rfl, rfl, rfl, rfl, rfl, rfl, rfl⟩
